import Mathlib

/-!
Shallow embedding of `src/cvpysdk/client.py` (the `Clients` registry and the
`Client` entity with its activity-control operations), together with proofs
of the specified properties.

The HTTP transport is modelled as a value describing the outcome of the one
request an operation issues: either transport-level failure carrying the raw
response text, or success carrying an optional decoded body (`none` models a
falsy/empty JSON body).  Response bodies are modelled per endpoint as typed
records mirroring exactly the keys the source reads.
-/

namespace Cvpysdk

/-! ### Python string casing (ASCII), as used by `str.lower` / `str.upper`
on the ASCII client names this code handles. -/

/-- ASCII lower-casing of one character (`str.lower`). -/
def pyLowerChar (c : Char) : Char :=
  if 65 ≤ c.toNat ∧ c.toNat ≤ 90 then Char.ofNat (c.toNat + 32) else c

/-- ASCII upper-casing of one character (`str.upper`). -/
def pyUpperChar (c : Char) : Char :=
  if 97 ≤ c.toNat ∧ c.toNat ≤ 122 then Char.ofNat (c.toNat - 32) else c

/-- `str.lower` on an ASCII string. -/
def pyLower (s : String) : String := ⟨s.data.map pyLowerChar⟩

/-- `str.upper` on an ASCII string. -/
def pyUpper (s : String) : String := ⟨s.data.map pyUpperChar⟩

theorem Char.toNat_ofNat_of_valid (n : Nat) (h : n < 55296) :
    (Char.ofNat n).toNat = n := by
  rw [Char.ofNat, dif_pos (Or.inl h)]
  simp [Char.toNat, Char.ofNatAux, UInt32.toNat, UInt32.ofNat']

theorem pyLowerChar_pyUpperChar (c : Char) :
    pyLowerChar (pyUpperChar c) = pyLowerChar c := by
  unfold pyUpperChar pyLowerChar
  split
  · rename_i h
    have hv : c.toNat - 32 < 55296 := by omega
    rw [Char.toNat_ofNat_of_valid _ hv]
    rw [if_pos (by omega), if_neg (by omega)]
    have : c.toNat - 32 + 32 = c.toNat := by omega
    rw [this, Char.ofNat_toNat]
  · rfl

theorem pyLowerChar_pyLowerChar (c : Char) :
    pyLowerChar (pyLowerChar c) = pyLowerChar c := by
  unfold pyLowerChar
  split
  · rename_i h
    have hv : c.toNat + 32 < 55296 := by
      rcases h with ⟨h1, h2⟩
      omega
    rw [Char.toNat_ofNat_of_valid _ hv, if_neg (by omega)]
  · rfl

theorem pyLower_pyUpper (s : String) : pyLower (pyUpper s) = pyLower s := by
  unfold pyLower pyUpper
  cases s with
  | mk data =>
    simp only [List.map_map]
    congr 1
    exact List.map_congr_left (fun c _ => pyLowerChar_pyUpperChar c)

theorem pyLower_pyLower (s : String) : pyLower (pyLower s) = pyLower s := by
  unfold pyLower
  cases s with
  | mk data =>
    simp only [List.map_map]
    congr 1
    exact List.map_congr_left (fun c _ => pyLowerChar_pyLowerChar c)

/-! ### Errors

`SDKException` lives in `cvpysdk/exception.py`, outside the provided source.
Modelled from the spec: the error taxonomy distinguishes `InvalidArgument`
(Client 101), the Client-102 business failures (`NotFound`, `OperationFailed`,
`DeleteFailed` — in the source all three are `SDKException('Client', '102',
msg)`, distinguished only by the carried message), `TimeInPast` (Client 103),
`InvalidTimeFormat` (Client 104), `HttpFailure` (Response 101, carrying raw
text) and `EmptyResponse` (Response 102).  `structural` models an uncaught
Python `KeyError`/`IndexError` on a lookup the source does not guard. -/
inductive SDKError where
  | invalidArgument : SDKError
  | clientError : String → SDKError
  | timeInPast : SDKError
  | invalidTimeFormat : SDKError
  | httpFailure : String → SDKError
  | emptyResponse : SDKError
  | structural : String → SDKError
  deriving DecidableEq, Repr

/-- Outcome of the single HTTP round trip an operation performs:
`failure text` is `flag = False` (with the raw response text), `success b`
is `flag = True` with `b = none` modelling a falsy decoded body. -/
inductive Transport (β : Type) where
  | failure : String → Transport β
  | success : Option β → Transport β
  deriving DecidableEq

/-- Modelled from the spec: `commcell_object._update_response_` is outside the
provided source; the spec says transport-level failures carry the raw
response text, so it is the identity on that text. -/
def update_response (text : String) : String := text

/-! ### Response body of a mutating (POST) operation -/

/-- One element of the body's `response` array: `errorCode` is read
unconditionally, `errorMessage` only behind a key-presence check. -/
structure RespElem where
  errorCode : Int
  errorMessage : Option String
  deriving DecidableEq, Repr

/-- Decoded body of a mutating operation: the source only reads the
`response` key (`none` models the key being absent). -/
structure MutateBody where
  response : Option (List RespElem)
  deriving DecidableEq, Repr

/-- The response-interpretation tail shared verbatim by all the activity
operations (`enable_backup`, `disable_backup`, ..., and the `_at_time`
variants); `opName` is the phrase interpolated into the failure message,
e.g. `enable Backup`. -/
def interpretActivityResponse (opName : String) :
    Transport MutateBody → Except SDKError Unit
  | .failure text => .error (.httpFailure (update_response text))
  | .success none => .error .emptyResponse
  | .success (some body) =>
    match body.response with
    | none => .error .emptyResponse
    | some [] => .error (.structural "IndexError")
    | some (e :: _) =>
      if e.errorCode = 0 then .ok ()
      else
        match e.errorMessage with
        | some msg =>
          .error (.clientError
            ("Failed to " ++ opName ++ "\nError: \"" ++ msg ++ "\""))
        | none => .ok ()

/-! ### The activity request builder `Client._request_json_` -/

/-- The `dateTime` sub-record of an activity-control option. -/
structure DateTimeRec where
  timeZoneName : String
  timeValue : String
  deriving DecidableEq, Repr

/-- One record of `activityControlOptions`; `dateTime = none` models the key
being absent from the dict literal. -/
structure ActivityOptionRec where
  activityType : Nat
  enableAfterADelay : Bool
  enableActivityType : Bool
  dateTime : Option DateTimeRec
  deriving DecidableEq, Repr

/-- The request document: `association.entity[0].clientName` and
`clientProperties.clientProps.clientActivityControl.activityControlOptions`. -/
structure RequestJson where
  associationClientName : String
  activityControlOptions : List ActivityOptionRec
  deriving DecidableEq, Repr

/-- The `options_dict` literal of `_request_json_`; `none` models the
`KeyError` a lookup of an unknown option would raise. -/
def options_dict (option : String) : Option Nat :=
  if option = "Backup" then some 1
  else if option = "Restore" then some 2
  else if option = "Data Aging" then some 16
  else none

/-- Python truthiness of the `enable_time` argument (`if enable_time:`):
false exactly for `None` and the empty string. -/
def pyTruthyOptStr : Option String → Bool
  | none => false
  | some s => !s.isEmpty

/-- `Client._request_json_(option, enable, enable_time)` for a client named
`client_name`.  Returns `none` on the `KeyError` of an unknown option. -/
def request_json (client_name option : String) (enable : Bool)
    (enable_time : Option String) : Option RequestJson :=
  match options_dict option with
  | none => none
  | some code =>
    if pyTruthyOptStr enable_time then
      some
        { associationClientName := client_name
          activityControlOptions :=
            [{ activityType := code
               enableAfterADelay := true
               enableActivityType := false
               dateTime := some
                 { timeZoneName := "(UTC) Coordinated Universal Time"
                   timeValue := (enable_time.getD "") } }] }
    else
      some
        { associationClientName := client_name
          activityControlOptions :=
            [{ activityType := code
               enableAfterADelay := false
               enableActivityType := enable
               dateTime := none }] }

/-! ### `time.strptime(s, "%Y-%m-%d %H:%M:%S")` and `time.mktime`

CPython's `_strptime` compiles the format to the regex
`(?P<Y>\d\d\d\d)-(?P<m>1[0-2]|0[1-9]|[1-9])-(?P<d>3[0-1]|[1-2]\d|0[1-9]|[1-9]| [1-9])\s+(?P<H>2[0-3]|[0-1]\d|\d):(?P<M>[0-5]\d|\d):(?P<S>6[0-1]|[0-5]\d|\d)`:
`%Y` is exactly four digits, the other fields are ordered alternations
(note the final space-digit alternative of `%d`), the format's literal
space becomes `\s+` (one or more whitespace characters), the literal `-`
and `:` must match, and the whole string must be consumed.  After the regex
match, `_strptime` constructs `datetime.date(year, month, day)`, whose
`ValueError` on a calendar-invalid date (or year 0) escapes `time.strptime`
just like a match failure — and the caller's `except ValueError` treats
both identically.  The parser below enumerates the regex's alternatives in
order with backtracking, exactly as the regex engine does, then applies the
date validation to the first full match. -/

structure TimeTuple where
  year : Nat
  month : Nat
  day : Nat
  hour : Nat
  minute : Nat
  second : Nat
  deriving DecidableEq, Repr

/-- Decimal digit value of a character, if any. -/
def digitVal (c : Char) : Option Nat :=
  if 48 ≤ c.toNat ∧ c.toNat ≤ 57 then some (c.toNat - 48) else none

/-- Match a literal character. -/
def litChar (c : Char) : List Char → List (List Char)
  | c2 :: rest => if c2 = c then [rest] else []
  | [] => []

/-- Exactly four digits (`%Y`). -/
def takeYear : List Char → List (Nat × List Char)
  | a :: b :: c :: d :: rest =>
    match digitVal a, digitVal b, digitVal c, digitVal d with
    | some x, some y, some z, some w => [(1000 * x + 100 * y + 10 * z + w, rest)]
    | _, _, _, _ => []
  | _ => []

/-- A one-or-two-digit field: the two-digit alternatives (validated by
`twoOk` on the digit pair) come first, then the one-digit alternatives
(validated by `oneOk`), in the order the compiled regex tries them. -/
def takeField (twoOk : Nat → Nat → Bool) (oneOk : Nat → Bool) :
    List Char → List (Nat × List Char)
  | c1 :: c2 :: rest =>
    match digitVal c1, digitVal c2 with
    | some d1, some d2 =>
      (if twoOk d1 d2 then [(10 * d1 + d2, rest)] else []) ++
        (if oneOk d1 then [(d1, c2 :: rest)] else [])
    | some d1, none => if oneOk d1 then [(d1, c2 :: rest)] else []
    | none, _ => []
  | [c1] =>
    match digitVal c1 with
    | some d1 => if oneOk d1 then [(d1, [])] else []
    | none => []
  | [] => []

def monthTwoOk (d1 d2 : Nat) : Bool := (d1 = 1 && d2 ≤ 2) || (d1 = 0 && 1 ≤ d2)
def monthOneOk (d : Nat) : Bool := 1 ≤ d
def dayTwoOk (d1 d2 : Nat) : Bool :=
  (d1 = 3 && d2 ≤ 1) || d1 = 1 || d1 = 2 || (d1 = 0 && 1 ≤ d2)
def dayOneOk (d : Nat) : Bool := 1 ≤ d
def hourTwoOk (d1 d2 : Nat) : Bool := (d1 = 2 && d2 ≤ 3) || d1 ≤ 1
def hourOneOk (_ : Nat) : Bool := true
def minuteTwoOk (d1 _d2 : Nat) : Bool := d1 ≤ 5
def minuteOneOk (_ : Nat) : Bool := true
def secondTwoOk (d1 d2 : Nat) : Bool := (d1 = 6 && d2 ≤ 1) || d1 ≤ 5
def secondOneOk (_ : Nat) : Bool := true

/-- Python regex `\s` restricted to ASCII (the model's string domain):
space, tab, newline, vertical tab, form feed, carriage return. -/
def isPySpace (c : Char) : Bool :=
  c == ' ' || c == '\t' || c == '\n' || c == '\x0b' || c == '\x0c' || c == '\r'

/-- `\s+` (the compiled form of the format's literal space): the ways to
consume one or more leading whitespace characters, longest first — the
greedy order the regex engine tries. -/
def takeSpaces1 : List Char → List (List Char)
  | c :: rest => if isPySpace c then takeSpaces1 rest ++ [rest] else []
  | [] => []

/-- The final ` [1-9]` alternative of the compiled `%d` pattern: a literal
space followed by a non-zero digit. -/
def takeDaySpace : List Char → List (Nat × List Char)
  | c1 :: c2 :: rest =>
    if c1 = ' ' then
      match digitVal c2 with
      | some d2 => if 1 ≤ d2 then [(d2, rest)] else []
      | none => []
    else []
  | _ => []

/-- `%d`, compiled as `3[0-1]|[1-2]\d|0[1-9]|[1-9]| [1-9]`: the two-digit
and one-digit alternatives, then the space-digit alternative, in the order
the regex tries them. -/
def takeDay (cs : List Char) : List (Nat × List Char) :=
  takeField dayTwoOk dayOneOk cs ++ takeDaySpace cs

/-- All full matches of the compiled format regex, in regex priority
order. -/
def strptimeCandidates (cs : List Char) : List TimeTuple :=
  (takeYear cs).flatMap fun py =>
  (litChar '-' py.2).flatMap fun r2 =>
  (takeField monthTwoOk monthOneOk r2).flatMap fun pm =>
  (litChar '-' pm.2).flatMap fun r4 =>
  (takeDay r4).flatMap fun pd =>
  (takeSpaces1 pd.2).flatMap fun r6 =>
  (takeField hourTwoOk hourOneOk r6).flatMap fun ph =>
  (litChar ':' ph.2).flatMap fun r8 =>
  (takeField minuteTwoOk minuteOneOk r8).flatMap fun pmin =>
  (litChar ':' pmin.2).flatMap fun r10 =>
  (takeField secondTwoOk secondOneOk r10).flatMap fun ps =>
  if ps.2 = [] then [⟨py.1, pm.1, pd.1, ph.1, pmin.1, ps.1⟩] else []

/-- Proleptic Gregorian leap year, as `datetime.date` uses it. -/
def isLeapYear (y : Nat) : Bool :=
  y % 4 == 0 && (y % 100 != 0 || y % 400 == 0)

/-- Days in a month of the proleptic Gregorian calendar. -/
def daysInMonth (y m : Nat) : Nat :=
  if m == 2 then (if isLeapYear y then 29 else 28)
  else if m == 4 || m == 6 || m == 9 || m == 11 then 30
  else 31

/-- The check `datetime.date(year, month, day)` performs inside
`_strptime`: the year at least 1 (the regex already bounds it by 9999) and
the day within the month; its `ValueError` escapes `time.strptime`. -/
def validDate (t : TimeTuple) : Bool :=
  t.year != 0 && t.day != 0 && decide (t.day ≤ daysInMonth t.year t.month)

/-- `time.strptime(s, "%Y-%m-%d %H:%M:%S")`: the first full regex match if
its date is calendar-valid, otherwise `none` (the `ValueError` path, which
the caller's `except ValueError` handles identically for a match failure
and an invalid date). -/
def strptime (s : String) : Option TimeTuple :=
  match (strptimeCandidates s.data).head? with
  | some t => if validDate t then some t else none
  | none => none

/-- `time.mktime` embedded as a mixed-radix encoding of the parsed tuple,
strictly monotone in the field-wise (lexicographic) order; `time.time()` is
a parameter `now` on the same scale. -/
def mktime (t : TimeTuple) : Nat :=
  ((((t.year * 13 + t.month) * 32 + t.day) * 24 + t.hour) * 60 + t.minute)
      * 62 + t.second

/-! ### The property-snapshot body (`GET <client-endpoint>/{id}`) -/

/-- `osInfo.OsDisplayInfo`. -/
structure OsDisplayInfoRec where
  processorType : String
  osName : String
  deriving DecidableEq, Repr

/-- `clientProperties[0].client.osInfo`. -/
structure OsInfoRec where
  osType : String
  subType : String
  osDisplayInfo : OsDisplayInfoRec
  deriving DecidableEq, Repr

/-- `clientProps.activityControl`. -/
structure ActivityControlRec where
  enableDataRecovery : Bool
  enableDataManagement : Bool
  enableOnlineContentIndex : Bool
  deriving DecidableEq, Repr

/-- One element of `clientProps.clientActivityControl.activityControlOptions`
in the snapshot. -/
structure SnapshotActivity where
  activityType : Int
  enableActivityType : Bool
  deriving DecidableEq, Repr

/-- One element of the snapshot's `clientProperties` array. -/
structure ClientPropsEntry where
  osInfo : OsInfoRec
  activityControl : ActivityControlRec
  activityControlOptions : List SnapshotActivity
  deriving DecidableEq, Repr

/-- Decoded body of the property fetch; `none` models a missing
`clientProperties` key. -/
structure PropsBody where
  clientProperties : Option (List ClientPropsEntry)
  deriving DecidableEq, Repr

/-- `'Enabled'` / `'Disabled'` from a boolean flag. -/
def enabledStr (b : Bool) : String := if b then "Enabled" else "Disabled"

/-- The private attributes `_get_client_properties` sets on `self`.  The
three per-activity flags are `Option` because the loop sets them only when
an entry with the matching `activityType` occurs (otherwise the attribute
stays unset). -/
structure ParsedProps where
  os_info : String
  data_recovery : String
  data_management : String
  online_content_index : String
  backup : Option String
  restore : Option String
  data_aging : Option String
  deriving DecidableEq, Repr

/-- The `for activity in activities` loop of `_get_client_properties`,
folding over the snapshot's activity records.  Codes `1`, `2`, `16` set the
backup / restore / data-aging flag; anything else is ignored. -/
def parseActivities (activities : List SnapshotActivity) :
    Option String × Option String × Option String :=
  activities.foldl
    (fun acc a =>
      if a.activityType = 1 then
        (some (enabledStr a.enableActivityType), acc.2.1, acc.2.2)
      else if a.activityType = 2 then
        (acc.1, some (enabledStr a.enableActivityType), acc.2.2)
      else if a.activityType = 16 then
        (acc.1, acc.2.1, some (enabledStr a.enableActivityType))
      else acc)
    (none, none, none)

/-- `Client._get_client_properties`: on success it sets the private parsed
attributes and — having no `return` statement on that path — yields the
Python value `None` as its result (first component of the pair is the
attributes, second the returned value, whose only inhabited case in the
source is `none`, despite the docstring promising the properties dict). -/
def get_client_properties (tr : Transport PropsBody) :
    Except SDKError (ParsedProps × Option PropsBody) :=
  match tr with
  | .failure text => .error (.httpFailure (update_response text))
  | .success none => .error .emptyResponse
  | .success (some body) =>
    match body.clientProperties with
    | none => .error .emptyResponse
    | some [] => .error (.structural "IndexError")
    | some (cp :: _) =>
      let osi := cp.osInfo
      let os_str := osi.osDisplayInfo.processorType ++ " " ++ osi.osType ++
        " " ++ osi.subType ++ "  --  " ++ osi.osDisplayInfo.osName
      let acts := parseActivities cp.activityControlOptions
      .ok
        ({ os_info := os_str
           data_recovery := enabledStr cp.activityControl.enableDataRecovery
           data_management := enabledStr cp.activityControl.enableDataManagement
           online_content_index :=
             enabledStr cp.activityControl.enableOnlineContentIndex
           backup := acts.1
           restore := acts.2.1
           data_aging := acts.2.2 },
         none)

/-- The `Client` entity after `__init__`: the name (lowercased), the id, the
public `properties` attribute (the value returned by
`_get_client_properties`) and the parsed private attributes. -/
structure Client where
  client_name : String
  client_id : String
  properties : Option PropsBody
  parsed : ParsedProps
  deriving DecidableEq, Repr

/-- `Client.__init__(commcell, client_name, client_id)` on the path where a
(non-empty, hence truthy) `client_id` string is supplied — the path every
registry lookup takes; `tr` is the outcome of the one property fetch. -/
def client_init (client_name client_id : String)
    (tr : Transport PropsBody) : Except SDKError Client :=
  match get_client_properties tr with
  | .error e => .error e
  | .ok pr =>
    .ok { client_name := pyLower client_name
          client_id := client_id
          properties := pr.2
          parsed := pr.1 }

/-! ### The mutating activity operations -/

/-- Shared shape of the six immediate toggles: build the request via
`_request_json_` (no scheduled time), issue one POST, interpret the
response.  Returns the outcome together with the list of requests issued. -/
def activityToggle (c : Client) (option : String) (enable : Bool)
    (opName : String) (tr : Transport MutateBody) :
    Except SDKError Unit × List RequestJson :=
  match request_json c.client_name option enable none with
  | none => (.error (.structural "KeyError"), [])
  | some req => (interpretActivityResponse opName tr, [req])

def enable_backup (c : Client) (tr : Transport MutateBody) :
    Except SDKError Unit × List RequestJson :=
  activityToggle c "Backup" true "enable Backup" tr

def disable_backup (c : Client) (tr : Transport MutateBody) :
    Except SDKError Unit × List RequestJson :=
  activityToggle c "Backup" false "disable Backup" tr

def enable_restore (c : Client) (tr : Transport MutateBody) :
    Except SDKError Unit × List RequestJson :=
  activityToggle c "Restore" true "enable Restore" tr

def disable_restore (c : Client) (tr : Transport MutateBody) :
    Except SDKError Unit × List RequestJson :=
  activityToggle c "Restore" false "disable Restore" tr

def enable_data_aging (c : Client) (tr : Transport MutateBody) :
    Except SDKError Unit × List RequestJson :=
  activityToggle c "Data Aging" true "enable Data Aging" tr

def disable_data_aging (c : Client) (tr : Transport MutateBody) :
    Except SDKError Unit × List RequestJson :=
  activityToggle c "Data Aging" false "disable Data Aging" tr

/-- Shared shape of the three `*_at_time` operations: validate the timestamp
(`strptime`, then the strict `mktime < now` comparison), then build the
request with `enable=False` and the timestamp and proceed as above.  `now`
is `time.time()` on the `mktime` scale. -/
def activityToggleAtTime (c : Client) (option : String) (opName : String)
    (now : Nat) (enable_time : String) (tr : Transport MutateBody) :
    Except SDKError Unit × List RequestJson :=
  match strptime enable_time with
  | none => (.error .invalidTimeFormat, [])
  | some t =>
    if mktime t < now then (.error .timeInPast, [])
    else
      match request_json c.client_name option false (some enable_time) with
      | none => (.error (.structural "KeyError"), [])
      | some req => (interpretActivityResponse opName tr, [req])

def enable_backup_at_time (c : Client) (now : Nat) (enable_time : String)
    (tr : Transport MutateBody) : Except SDKError Unit × List RequestJson :=
  activityToggleAtTime c "Backup" "enable Backup" now enable_time tr

def enable_restore_at_time (c : Client) (now : Nat) (enable_time : String)
    (tr : Transport MutateBody) : Except SDKError Unit × List RequestJson :=
  activityToggleAtTime c "Restore" "enable Restore" now enable_time tr

def enable_data_aging_at_time (c : Client) (now : Nat) (enable_time : String)
    (tr : Transport MutateBody) : Except SDKError Unit × List RequestJson :=
  activityToggleAtTime c "Data Aging" "enable Data Aging" now enable_time tr

/-! ### The `Clients` registry -/

/-- The cached mapping `self._clients`: lowercased client name → client id,
as an association list (later server entries overwrite earlier ones, as in a
Python dict). -/
abbrev ClientMap := List (String × String)

/-- Python dict insertion: overwrite any existing binding of the key. -/
def mapInsert (m : ClientMap) (k v : String) : ClientMap :=
  (m.filter fun p => p.1 != k) ++ [(k, v)]

/-- One element of the listing body's `clientProperties` array:
`client.clientEntity.clientName` / `.clientId` (the id is a JSON integer,
stringified by the source). -/
structure ListEntry where
  clientName : String
  clientId : Int
  deriving DecidableEq, Repr

/-- Decoded body of the all-clients listing; `none` models a missing
`clientProperties` key. -/
structure ListBody where
  clientProperties : Option (List ListEntry)
  deriving DecidableEq, Repr

/-- `Clients._get_clients`: build the name→id mapping from one listing,
lowercasing `str(clientName)` and `str(clientId)`. -/
def get_clients (tr : Transport ListBody) : Except SDKError ClientMap :=
  match tr with
  | .failure text => .error (.httpFailure (update_response text))
  | .success none => .error .emptyResponse
  | .success (some body) =>
    match body.clientProperties with
    | none => .error .emptyResponse
    | some entries =>
      .ok (entries.foldl
        (fun m e => mapInsert m (pyLower e.clientName) (pyLower (toString e.clientId)))
        [])

/-- `Clients.has_client(client_name)`: `self._clients and
str(client_name).lower() in self._clients` coerced to a boolean (an empty
dict is falsy). -/
def has_client (m : ClientMap) (client_name : String) : Bool :=
  !m.isEmpty && (m.lookup (pyLower client_name)).isSome

/-- `Clients.get(client_name)`: lowercase the name, check presence,
construct a `Client` with the cached id (one property fetch, whose outcome
is `propsTr`), or raise the Client-102 not-found error. -/
def Clients.get (m : ClientMap) (client_name : String)
    (propsTr : Transport PropsBody) : Except SDKError Client :=
  let name := pyLower client_name
  if has_client m name then
    match m.lookup name with
    | some cid => client_init name cid propsTr
    | none => .error (.structural "KeyError")
  else
    .error (.clientError ("No client exists with name: " ++ name))

/-- Decoded body of the delete request: the source reads `response` first
and, only when that key is absent, the top-level `errorCode`/`warningCode`
(defaulting to 0) and then `errorMessage`/`warningMessage` (an unguarded
lookup — `none` models the key being absent, i.e. a `KeyError`). -/
structure DeleteBody where
  response : Option (List RespElem)
  errorCode : Option Int
  warningCode : Option Int
  errorMessage : Option String
  warningMessage : Option String
  deriving DecidableEq, Repr

/-- `Clients.delete(client_name)`.  Returns the outcome, the final cached
mapping, and whether the DELETE request was issued.  `tr` is the outcome of
the DELETE, `relistTr` the outcome of the re-listing performed on the
`errorCode == 0` path. -/
def Clients.delete (m : ClientMap) (client_name : String)
    (tr : Transport DeleteBody) (relistTr : Transport ListBody) :
    Except SDKError Unit × ClientMap × Bool :=
  let name := pyLower client_name
  if has_client m name then
    match tr with
    | .failure text =>
      (.error (.clientError
        ("Failed to delete the client\nError: \"" ++ update_response text ++ "\"")),
       m, true)
    | .success none => (.error .emptyResponse, m, true)
    | .success (some body) =>
      match body.response with
      | some [] => (.error (.structural "IndexError"), m, true)
      | some (e :: _) =>
        if e.errorCode = 0 then
          match get_clients relistTr with
          | .ok m2 => (.ok (), m2, true)
          | .error err => (.error err, m, true)
        else
          (.ok (), m, true)
      | none =>
        let ec := body.errorCode.getD 0
        let wc := body.warningCode.getD 0
        if ec ≠ 0 then
          match body.errorMessage with
          | none => (.error (.structural "KeyError"), m, true)
          | some msg =>
            (.error (.clientError
              (if msg ≠ "" then
                 "Failed to delete client\nError: \"" ++ msg ++ "\""
               else "Failed to delete client")), m, true)
        else if wc ≠ 0 then
          match body.warningMessage with
          | none => (.error (.structural "KeyError"), m, true)
          | some msg =>
            (.error (.clientError
              (if msg ≠ "" then
                 "Failed to delete client\nWarning: \"" ++ msg ++ "\""
               else "Failed to delete client")), m, true)
        else
          (.error (.clientError "Failed to delete client"), m, true)
  else
    (.error (.clientError ("No client exists with name: " ++ name)), m, false)

/-! ### Shared lemmas and sample data -/

/-- The response-interpretation contract of the spec, for one operation
whose failure message names `opName`: success on `errorCode == 0`, the
Client-102 operation failure when a non-zero code comes with a message, the
empty-response error when the body is falsy or lacks `response`, and the
transport failure carrying the raw text. -/
def respContract (opName : String) (tr : Transport MutateBody)
    (r : Except SDKError Unit) : Prop :=
  (∀ body e rest, tr = .success (some body) → body.response = some (e :: rest) →
    (e.errorCode = 0 → r = .ok ()) ∧
    (e.errorCode ≠ 0 → ∀ msg, e.errorMessage = some msg →
      r = .error (.clientError
        ("Failed to " ++ opName ++ "\nError: \"" ++ msg ++ "\"")))) ∧
  (tr = .success none → r = .error .emptyResponse) ∧
  (∀ body, tr = .success (some body) → body.response = none →
    r = .error .emptyResponse) ∧
  (∀ text, tr = .failure text → r = .error (.httpFailure text))

theorem interp_respContract (opName : String) (tr : Transport MutateBody) :
    respContract opName tr (interpretActivityResponse opName tr) := by
  refine ⟨?_, ?_, ?_, ?_⟩
  · rintro body e rest rfl hresp
    constructor
    · intro hzero
      simp only [interpretActivityResponse, hresp, if_pos hzero]
    · intro hnz msg hmsg
      simp only [interpretActivityResponse, hresp, if_neg hnz, hmsg]
  · rintro rfl; rfl
  · rintro body rfl hresp
    simp only [interpretActivityResponse, hresp]
  · rintro text rfl; rfl

theorem interp_silent (opName : String) (body : MutateBody) (e : RespElem)
    (rest : List RespElem) (hresp : body.response = some (e :: rest))
    (hcode : e.errorCode ≠ 0) (hmsg : e.errorMessage = none) :
    interpretActivityResponse opName (.success (some body)) = .ok () := by
  simp only [interpretActivityResponse, hresp, if_neg hcode, hmsg]

theorem strptime_ne_empty {ts : String} {t : TimeTuple}
    (h : strptime ts = some t) : ts ≠ "" := by
  intro he
  subst he
  have hn : strptime "" = none := rfl
  rw [hn] at h
  cases h

theorem activityToggleAtTime_eq (c : Client) (option opName : String)
    (code : Nat) (hcode : options_dict option = some code) (now : Nat)
    (ts : String) (t : TimeTuple) (tr : Transport MutateBody)
    (hparse : strptime ts = some t) (hlt : ¬ mktime t < now) :
    activityToggleAtTime c option opName now ts tr =
      (interpretActivityResponse opName tr,
       [{ associationClientName := c.client_name
          activityControlOptions :=
            [{ activityType := code
               enableAfterADelay := true
               enableActivityType := false
               dateTime := some
                 { timeZoneName := "(UTC) Coordinated Universal Time"
                   timeValue := ts } }] }]) := by
  have hne : ts.isEmpty = false := by
    rcases h : ts.isEmpty with _ | _
    · rfl
    · exact absurd ((String.isEmpty_iff ts).mp h) (strptime_ne_empty hparse)
  simp only [activityToggleAtTime, hparse, if_neg hlt, request_json, hcode,
    pyTruthyOptStr, hne, Bool.not_false, if_true, Option.getD_some]

theorem mem_build_map (entries : List ListEntry) (acc : ClientMap)
    (p : String × String)
    (hp : p ∈ entries.foldl
      (fun m e => mapInsert m (pyLower e.clientName) (pyLower (toString e.clientId)))
      acc) :
    p ∈ acc ∨
      ∃ e ∈ entries, p = (pyLower e.clientName, pyLower (toString e.clientId)) := by
  induction entries generalizing acc with
  | nil => exact .inl hp
  | cons e rest ih =>
    rcases ih _ hp with h | ⟨e', he', hpe⟩
    · unfold mapInsert at h
      rcases List.mem_append.mp h with h1 | h2
      · exact .inl (List.mem_filter.mp h1).1
      · right
        refine ⟨e, List.mem_cons_self e rest, ?_⟩
        simpa using h2
    · exact .inr ⟨e', List.mem_cons_of_mem e he', hpe⟩

/-- A sample parsed-attributes record for concrete instantiations. -/
def sampleParsed : ParsedProps :=
  { os_info := "x64 Windows ServerOS  --  Win2012"
    data_recovery := "Enabled"
    data_management := "Enabled"
    online_content_index := "Enabled"
    backup := some "Enabled"
    restore := some "Enabled"
    data_aging := some "Enabled" }

/-- A sample constructed client entity for concrete instantiations. -/
def sampleClient : Client :=
  { client_name := "clienta"
    client_id := "5"
    properties := none
    parsed := sampleParsed }

/-- A sample successful property-snapshot body. -/
def samplePropsBody : PropsBody :=
  { clientProperties := some
      [{ osInfo :=
           { osType := "Windows"
             subType := "ServerOS"
             osDisplayInfo := { processorType := "x64", osName := "Win2012" } }
         activityControl :=
           { enableDataRecovery := true
             enableDataManagement := true
             enableOnlineContentIndex := true }
         activityControlOptions := [⟨1, true⟩, ⟨2, true⟩, ⟨16, true⟩] }] }

theorem get_client_properties_snd (tr : Transport PropsBody)
    (pr : ParsedProps × Option PropsBody)
    (h : get_client_properties tr = .ok pr) : pr.2 = none := by
  unfold get_client_properties at h
  repeat' split at h
  all_goals cases h
  all_goals rfl

/-! ### The claims -/

/-- C1: every mutating activity operation (the six immediate toggles and the
three `*_at_time` variants, the latter once timestamp validation passes)
interprets the transport outcome by the shared contract: `errorCode == 0` in
`response[0]` returns with no value; a non-zero code with an `errorMessage`
raises the Client-102 operation failure carrying the message and the
operation name; a falsy body or a missing `response` key raises the
empty-response error; transport non-success raises the HTTP failure carrying
the raw response text. -/
theorem claim1_response_contract (c : Client) (tr : Transport MutateBody) :
    respContract "enable Backup" tr (enable_backup c tr).1 ∧
    respContract "disable Backup" tr (disable_backup c tr).1 ∧
    respContract "enable Restore" tr (enable_restore c tr).1 ∧
    respContract "disable Restore" tr (disable_restore c tr).1 ∧
    respContract "enable Data Aging" tr (enable_data_aging c tr).1 ∧
    respContract "disable Data Aging" tr (disable_data_aging c tr).1 ∧
    ∀ (now : Nat) (ts : String) (t : TimeTuple),
      strptime ts = some t → ¬ mktime t < now →
      respContract "enable Backup" tr (enable_backup_at_time c now ts tr).1 ∧
      respContract "enable Restore" tr (enable_restore_at_time c now ts tr).1 ∧
      respContract "enable Data Aging" tr
        (enable_data_aging_at_time c now ts tr).1 := by
  refine ⟨interp_respContract _ tr, interp_respContract _ tr,
    interp_respContract _ tr, interp_respContract _ tr,
    interp_respContract _ tr, interp_respContract _ tr, ?_⟩
  intro now ts t hparse hlt
  refine ⟨?_, ?_, ?_⟩
  · have h : (enable_backup_at_time c now ts tr).1 =
        interpretActivityResponse "enable Backup" tr := by
      show (activityToggleAtTime c "Backup" "enable Backup" now ts tr).1 = _
      rw [activityToggleAtTime_eq c "Backup" "enable Backup" 1 rfl now ts t tr
        hparse hlt]
    rw [h]
    exact interp_respContract _ tr
  · have h : (enable_restore_at_time c now ts tr).1 =
        interpretActivityResponse "enable Restore" tr := by
      show (activityToggleAtTime c "Restore" "enable Restore" now ts tr).1 = _
      rw [activityToggleAtTime_eq c "Restore" "enable Restore" 2 rfl now ts t tr
        hparse hlt]
    rw [h]
    exact interp_respContract _ tr
  · have h : (enable_data_aging_at_time c now ts tr).1 =
        interpretActivityResponse "enable Data Aging" tr := by
      show (activityToggleAtTime c "Data Aging" "enable Data Aging"
        now ts tr).1 = _
      rw [activityToggleAtTime_eq c "Data Aging" "enable Data Aging" 16 rfl
        now ts t tr hparse hlt]
    rw [h]
    exact interp_respContract _ tr

theorem claim1_witness :
    (enable_backup sampleClient (.success (some ⟨some [⟨0, none⟩]⟩))).1 =
      .ok () ∧
    (disable_backup sampleClient (.failure "oops")).1 =
      .error (.httpFailure "oops") := by
  have h := claim1_response_contract sampleClient
    (.success (some ⟨some [⟨0, none⟩]⟩))
  have h2 := claim1_response_contract sampleClient (.failure "oops")
  exact ⟨(h.1.1 _ _ _ rfl rfl).1 rfl, h2.2.1.2.2.2 "oops" rfl⟩

/-- C9 (implicit): when the transport succeeds and `response[0]` has a
non-zero `errorCode` but no `errorMessage` key, every mutating activity
operation falls through both branches and returns normally, exactly as in
the success case. -/
theorem claim9_silent_on_missing_message (c : Client) (body : MutateBody)
    (e : RespElem) (rest : List RespElem)
    (hresp : body.response = some (e :: rest))
    (hcode : e.errorCode ≠ 0) (hmsg : e.errorMessage = none) :
    (enable_backup c (.success (some body))).1 = .ok () ∧
    (disable_backup c (.success (some body))).1 = .ok () ∧
    (enable_restore c (.success (some body))).1 = .ok () ∧
    (disable_restore c (.success (some body))).1 = .ok () ∧
    (enable_data_aging c (.success (some body))).1 = .ok () ∧
    (disable_data_aging c (.success (some body))).1 = .ok () ∧
    ∀ (now : Nat) (ts : String) (t : TimeTuple),
      strptime ts = some t → ¬ mktime t < now →
      (enable_backup_at_time c now ts (.success (some body))).1 = .ok () ∧
      (enable_restore_at_time c now ts (.success (some body))).1 = .ok () ∧
      (enable_data_aging_at_time c now ts (.success (some body))).1 =
        .ok () := by
  refine ⟨interp_silent _ body e rest hresp hcode hmsg,
    interp_silent _ body e rest hresp hcode hmsg,
    interp_silent _ body e rest hresp hcode hmsg,
    interp_silent _ body e rest hresp hcode hmsg,
    interp_silent _ body e rest hresp hcode hmsg,
    interp_silent _ body e rest hresp hcode hmsg, ?_⟩
  intro now ts t hparse hlt
  refine ⟨?_, ?_, ?_⟩
  · show (activityToggleAtTime c "Backup" "enable Backup" now ts _).1 = _
    rw [activityToggleAtTime_eq c "Backup" "enable Backup" 1 rfl now ts t _
      hparse hlt]
    exact interp_silent _ body e rest hresp hcode hmsg
  · show (activityToggleAtTime c "Restore" "enable Restore" now ts _).1 = _
    rw [activityToggleAtTime_eq c "Restore" "enable Restore" 2 rfl now ts t _
      hparse hlt]
    exact interp_silent _ body e rest hresp hcode hmsg
  · show (activityToggleAtTime c "Data Aging" "enable Data Aging"
      now ts _).1 = _
    rw [activityToggleAtTime_eq c "Data Aging" "enable Data Aging" 16 rfl
      now ts t _ hparse hlt]
    exact interp_silent _ body e rest hresp hcode hmsg

theorem claim9_witness :
    (enable_backup sampleClient (.success (some ⟨some [⟨5, none⟩]⟩))).1 =
      .ok () :=
  (claim9_silent_on_missing_message sampleClient ⟨some [⟨5, none⟩]⟩
    ⟨5, none⟩ [] rfl (by decide) rfl).1

/-- C10 (implicit): on every successful construction of a client entity, the
property fetch returns no value, so the public `properties` attribute is
always `None`; the parsed fields live only in the separate private
attributes. -/
theorem claim10_properties_always_none (client_name client_id : String)
    (tr : Transport PropsBody) (c : Client)
    (h : client_init client_name client_id tr = .ok c) :
    c.properties = none := by
  unfold client_init at h
  cases htr : get_client_properties tr with
  | error e => rw [htr] at h; cases h
  | ok pr =>
    rw [htr] at h
    injection h with h'
    rw [← h']
    exact get_client_properties_snd tr pr htr

theorem claim10_witness : sampleClient.properties = none :=
  claim10_properties_always_none "ClientA" "5"
    (.success (some samplePropsBody)) sampleClient rfl

/-- C5: `has_client` is case-insensitive — for every cached mapping and
every name `n`, `has_client m n = has_client m (pyUpper n)`, i.e. the
result depends only on the lowercased form of `n`. -/
theorem claim5_exists_case_insensitive (m : ClientMap) (n : String) :
    has_client m n = has_client m (pyUpper n) := by
  unfold has_client
  rw [pyLower_pyUpper]

/-- C3 counterexample: a supplied scheduled time that is the empty string is
falsy under `if enable_time:`, so the builder returns the no-delay record —
`enableAfterADelay = false`, `enableActivityType` equal to the `enabled`
argument (`true` here), and no `dateTime` key — refuting "when a scheduled
time is supplied, the record always has enableAfterADelay == true and
enableActivityType == false". -/
theorem claim3_counterexample :
    request_json "clienta" "Backup" true (some "") =
      some { associationClientName := "clienta"
             activityControlOptions :=
               [{ activityType := 1
                  enableAfterADelay := false
                  enableActivityType := true
                  dateTime := none }] } := rfl

/-- C3 amended: for every valid activity option, with no scheduled time or
with the (falsy) empty string, the sole option record is
`{activityType: code, enableAfterADelay: false, enableActivityType: enabled}`
with no `dateTime` key; with a non-empty scheduled time the record always
has `enableAfterADelay == true` and `enableActivityType == false` regardless
of `enabled`, with `dateTime.timeValue` the supplied string verbatim. -/
theorem claim3_request_builder (client_name option : String) (code : Nat)
    (enable : Bool) (hcode : options_dict option = some code) :
    (request_json client_name option enable none =
      some { associationClientName := client_name
             activityControlOptions :=
               [{ activityType := code
                  enableAfterADelay := false
                  enableActivityType := enable
                  dateTime := none }] }) ∧
    (request_json client_name option enable (some "") =
      some { associationClientName := client_name
             activityControlOptions :=
               [{ activityType := code
                  enableAfterADelay := false
                  enableActivityType := enable
                  dateTime := none }] }) ∧
    (∀ ts : String, ts ≠ "" →
      request_json client_name option enable (some ts) =
        some { associationClientName := client_name
               activityControlOptions :=
                 [{ activityType := code
                    enableAfterADelay := true
                    enableActivityType := false
                    dateTime := some
                      { timeZoneName := "(UTC) Coordinated Universal Time"
                        timeValue := ts } }] }) := by
  refine ⟨?_, ?_, ?_⟩
  · unfold request_json
    rw [hcode]
    rfl
  · unfold request_json
    rw [hcode]
    rfl
  · intro ts hts
    have h : pyTruthyOptStr (some ts) = true := by
      show (!ts.isEmpty) = true
      rcases hE : ts.isEmpty with _ | _
      · rfl
      · exact absurd ((String.isEmpty_iff ts).mp hE) hts
    unfold request_json
    rw [hcode, h]
    rfl

theorem claim3_witness :
    request_json "clienta" "Restore" true (some "2030-01-01 00:00:00") =
      some { associationClientName := "clienta"
             activityControlOptions :=
               [{ activityType := 2
                  enableAfterADelay := true
                  enableActivityType := false
                  dateTime := some
                    { timeZoneName := "(UTC) Coordinated Universal Time"
                      timeValue := "2030-01-01 00:00:00" } }] } :=
  (claim3_request_builder "clienta" "Restore" 2 true rfl).2.2
    "2030-01-01 00:00:00" (by decide)

/-- C4 counterexample: a timestamp that parses to an instant exactly equal
to the caller's current time is not strictly in the future, yet the call
does not raise the time-in-past error: the strict `mktime < now` comparison
is false, so the request is issued (here the transport fails, so the HTTP
failure surfaces and the issued-request list is non-empty). -/
theorem claim4_counterexample :
    enable_backup_at_time sampleClient (mktime ⟨2030, 1, 1, 0, 0, 0⟩)
        "2030-01-01 00:00:00" (.failure "down") =
      (.error (.httpFailure "down"),
       [{ associationClientName := "clienta"
          activityControlOptions :=
            [{ activityType := 1
               enableAfterADelay := true
               enableActivityType := false
               dateTime := some
                 { timeZoneName := "(UTC) Coordinated Universal Time"
                   timeValue := "2030-01-01 00:00:00" } }] }]) := rfl

/-- C4 amended: for every input string `ts` to the `*_at_time` operations,
if `ts` does not parse under `%Y-%m-%d %H:%M:%S` the call raises the
invalid-time-format error, and if `ts` parses to an instant strictly in the
past (strictly before the caller's current time; an instant equal to the
current time proceeds) the call raises the time-in-past error; no network
request is issued in either failure case. -/
theorem claim4_time_validation (c : Client) (now : Nat) (ts : String)
    (tr : Transport MutateBody) :
    (strptime ts = none →
      enable_backup_at_time c now ts tr = (.error .invalidTimeFormat, []) ∧
      enable_restore_at_time c now ts tr = (.error .invalidTimeFormat, []) ∧
      enable_data_aging_at_time c now ts tr =
        (.error .invalidTimeFormat, [])) ∧
    (∀ t, strptime ts = some t → mktime t < now →
      enable_backup_at_time c now ts tr = (.error .timeInPast, []) ∧
      enable_restore_at_time c now ts tr = (.error .timeInPast, []) ∧
      enable_data_aging_at_time c now ts tr = (.error .timeInPast, [])) := by
  constructor
  · intro hn
    unfold enable_backup_at_time enable_restore_at_time
      enable_data_aging_at_time activityToggleAtTime
    rw [hn]
    exact ⟨rfl, rfl, rfl⟩
  · intro t hp hlt
    unfold enable_backup_at_time enable_restore_at_time
      enable_data_aging_at_time activityToggleAtTime
    rw [hp]
    simp only [if_pos hlt]
    exact ⟨trivial, trivial, trivial⟩

theorem claim4_witness :
    enable_backup_at_time sampleClient 0 "garbage" (.failure "down") =
      (.error .invalidTimeFormat, []) ∧
    enable_backup_at_time sampleClient (mktime ⟨2030, 1, 1, 0, 0, 1⟩)
        "2030-01-01 00:00:00" (.failure "down") =
      (.error .timeInPast, []) := by
  constructor
  · exact ((claim4_time_validation sampleClient 0 "garbage"
      (.failure "down")).1 rfl).1
  · exact ((claim4_time_validation sampleClient (mktime ⟨2030, 1, 1, 0, 0, 1⟩)
      "2030-01-01 00:00:00" (.failure "down")).2
      ⟨2030, 1, 1, 0, 0, 0⟩ rfl (by decide)).1

theorem lookup_isSome_isEmpty {m : ClientMap} {k v : String}
    (h : m.lookup k = some v) : m.isEmpty = false := by
  cases m with
  | nil => cases h
  | cons p rest => rfl

theorem has_client_pyLower (m : ClientMap) (n : String) :
    has_client m (pyLower n) = has_client m n := by
  unfold has_client
  rw [pyLower_pyLower]

theorem client_init_ok_id (name cid : String) (tr : Transport PropsBody)
    (c : Client) (h : client_init name cid tr = .ok c) :
    c.client_id = cid := by
  unfold client_init at h
  cases htr : get_client_properties tr with
  | error e => rw [htr] at h; cases h
  | ok pr =>
    rw [htr] at h
    injection h with h'
    subst h'
    rfl

/-- C6: for every name whose lowercased form the cached mapping (obtained
from a successful listing) binds to an identifier, `Clients.get` constructs
a client entity carrying exactly that identifier; for every name whose
lowercased form is absent, it raises the Client-102 not-found error carrying
the (lowercased) name. -/
theorem claim6_get_returns_listed_id (listTr : Transport ListBody)
    (m : ClientMap) (n : String) (propsTr : Transport PropsBody)
    (_hm : get_clients listTr = .ok m) :
    (∀ cid, m.lookup (pyLower n) = some cid →
      ∀ c, Clients.get m n propsTr = .ok c → c.client_id = cid) ∧
    (m.lookup (pyLower n) = none →
      Clients.get m n propsTr =
        .error (.clientError ("No client exists with name: " ++ pyLower n))) := by
  constructor
  · intro cid hcid c hget
    have hhc : has_client m (pyLower n) = true := by
      unfold has_client
      rw [pyLower_pyLower, hcid, lookup_isSome_isEmpty hcid]
      rfl
    simp only [Clients.get, hhc, if_true, hcid] at hget
    exact client_init_ok_id _ _ _ _ hget
  · intro hnone
    have hhc : has_client m (pyLower n) = false := by
      unfold has_client
      rw [pyLower_pyLower, hnone]
      simp
    simp [Clients.get, hhc]

theorem claim6_witness :
    Clients.get [("clienta", "5")] "ClientA"
      (.success (some samplePropsBody)) = .ok sampleClient ∧
    sampleClient.client_id = "5" := by
  refine ⟨rfl, ?_⟩
  exact (claim6_get_returns_listed_id
    (.success (some ⟨some [⟨"ClientA", (5 : Int)⟩]⟩)) [("clienta", "5")]
    "ClientA" (.success (some samplePropsBody)) rfl).1 "5" rfl
    sampleClient rfl

theorem delete_map_eq (m : ClientMap) (name : String)
    (dtr : Transport DeleteBody) (rtr : Transport ListBody) :
    (Clients.delete m name dtr rtr).2.1 = m ∨
      ((Clients.delete m name dtr rtr).1 = .ok () ∧
       ∃ body e rest, dtr = .success (some body) ∧
         body.response = some (e :: rest) ∧ e.errorCode = 0 ∧
         get_clients rtr = .ok ((Clients.delete m name dtr rtr).2.1)) := by
  cases hhc : has_client m (pyLower name) with
  | false =>
    left
    simp [Clients.delete, hhc]
  | true =>
    cases dtr with
    | failure t => left; simp [Clients.delete, hhc]
    | success ob =>
      cases ob with
      | none => left; simp [Clients.delete, hhc]
      | some body =>
        cases hresp : body.response with
        | none =>
          left
          simp only [Clients.delete, hhc, if_true, hresp]
          repeat' split
          all_goals rfl
        | some elems =>
          cases elems with
          | nil => left; simp [Clients.delete, hhc, hresp]
          | cons e rest =>
            by_cases hec : e.errorCode = 0
            · cases hgc : get_clients rtr with
              | error err =>
                left
                simp [Clients.delete, hhc, hresp, hec, hgc]
              | ok m2 =>
                right
                have hd : Clients.delete m name (.success (some body)) rtr =
                    (.ok (), m2, true) := by
                  simp [Clients.delete, hhc, hresp, hec, hgc]
                rw [hd]
                exact ⟨rfl, body, e, rest, rfl, hresp, hec, by simp [hgc]⟩
            · left
              simp [Clients.delete, hhc, hresp, hec]

/-- C7: every key of the cached mapping produced by `_get_clients` — at
construction and at the refresh after a successful delete, which runs the
same listing — is a lowercase string (`pyLower k = k`), being the lowercased
`clientName` of some listed entry, and the stored identifier is the
stringified `clientId` of that entry; and the mapping a delete leaves behind
is either the original or itself a `_get_clients` result. -/
theorem claim7_keys_lowercase :
    (∀ (tr : Transport ListBody) (m : ClientMap), get_clients tr = .ok m →
      ∀ p ∈ m, pyLower p.1 = p.1 ∧
        ∃ body entries e, tr = Transport.success (some body) ∧
          body.clientProperties = some entries ∧ e ∈ entries ∧
          p.1 = pyLower e.clientName ∧ p.2 = pyLower (toString e.clientId)) ∧
    (∀ (m₀ : ClientMap) (name : String) (dtr : Transport DeleteBody)
        (rtr : Transport ListBody),
      (Clients.delete m₀ name dtr rtr).2.1 = m₀ ∨
        get_clients rtr = .ok ((Clients.delete m₀ name dtr rtr).2.1)) := by
  constructor
  · intro tr m hm p hp
    cases tr with
    | failure t => cases hm
    | success ob =>
      cases ob with
      | none => cases hm
      | some body =>
        cases hcp : body.clientProperties with
        | none =>
          simp only [get_clients] at hm
          rw [hcp] at hm
          cases hm
        | some entries =>
          simp only [get_clients] at hm
          rw [hcp] at hm
          injection hm with hm'
          subst hm'
          rcases mem_build_map entries [] p hp with h | ⟨e, he, hpe⟩
          · exact absurd h (List.not_mem_nil p)
          · subst hpe
            exact ⟨pyLower_pyLower _, body, entries, e, rfl, hcp, he, rfl, rfl⟩
  · intro m₀ name dtr rtr
    rcases delete_map_eq m₀ name dtr rtr with h | ⟨_, _, _, _, _, _, _, hgc⟩
    · exact .inl h
    · exact .inr hgc

theorem claim7_witness :
    get_clients (.success (some ⟨some [⟨"ClientA", (5 : Int)⟩]⟩)) =
      .ok [("clienta", "5")] ∧ pyLower "clienta" = "clienta" := by
  refine ⟨rfl, ?_⟩
  exact (claim7_keys_lowercase.1 (.success (some ⟨some [⟨"ClientA", 5⟩]⟩))
    [("clienta", "5")] rfl ("clienta", "5") (by simp)).1

/-- C8: every failing `Clients.delete` call leaves the cached mapping
exactly as before: whenever the outcome is an error the final mapping is
the initial one, and the mapping changes only on the path where the
response's element 0 has `errorCode == 0` and the subsequent re-listing
succeeds. -/
theorem claim8_failure_preserves_cache (m : ClientMap) (name : String)
    (dtr : Transport DeleteBody) (rtr : Transport ListBody) :
    (∀ err, (Clients.delete m name dtr rtr).1 = .error err →
      (Clients.delete m name dtr rtr).2.1 = m) ∧
    ((Clients.delete m name dtr rtr).2.1 ≠ m →
      (Clients.delete m name dtr rtr).1 = .ok () ∧
      ∃ body e rest, dtr = .success (some body) ∧
        body.response = some (e :: rest) ∧ e.errorCode = 0 ∧
        get_clients rtr = .ok ((Clients.delete m name dtr rtr).2.1)) := by
  constructor
  · intro err herr
    rcases delete_map_eq m name dtr rtr with h | ⟨hok, _⟩
    · exact h
    · rw [herr] at hok
      cases hok
  · intro hne
    rcases delete_map_eq m name dtr rtr with h | h
    · exact absurd h hne
    · exact h

theorem claim8_witness :
    (Clients.delete [("clienta", "5")] "missing" (.failure "f")
      (.failure "g")).1 =
      .error (.clientError "No client exists with name: missing") ∧
    (Clients.delete [("clienta", "5")] "missing" (.failure "f")
      (.failure "g")).2.1 = [("clienta", "5")] := by
  refine ⟨rfl, ?_⟩
  exact (claim8_failure_preserves_cache [("clienta", "5")] "missing"
    (.failure "f") (.failure "g")).1 _ rfl

/-- C2 counterexample: a delete whose transport succeeds with body
`{"response": [{"errorCode": 5, "errorMessage": "denied"}]}` — a non-zero
`errorCode` inside the `response` array — does not raise the delete-failed
error: the source has no else-branch there and the call returns normally,
refuting the claim that this outcome raises `DeleteFailed`. -/
theorem claim2_counterexample :
    (Clients.delete [("clienta", "5")] "clienta"
      (.success (some ⟨some [⟨5, some "denied"⟩], none, none, none, none⟩))
      (.failure "unused")).1 = .ok () := rfl

/-- C2 amended: `delete` raises the not-found error before issuing any
request when the name is unknown; for the issued request it raises the
delete-failed error carrying the best available error/warning message on
explicit top-level `errorCode`/`warningCode` fields and on transport
failure, and the empty-response error on a falsy body — but a non-zero
`errorCode` inside the `response` array is silently ignored: the call
returns normally without refreshing the cache. -/
theorem claim2_delete_error_paths (m : ClientMap) (name : String)
    (dtr : Transport DeleteBody) (rtr : Transport ListBody) :
    (has_client m name = false →
      Clients.delete m name dtr rtr =
        (.error (.clientError ("No client exists with name: " ++ pyLower name)),
         m, false)) ∧
    (has_client m name = true →
      (∀ text, dtr = .failure text →
        Clients.delete m name dtr rtr =
          (.error (.clientError
            ("Failed to delete the client\nError: \"" ++ text ++ "\"")),
           m, true)) ∧
      (dtr = .success none →
        Clients.delete m name dtr rtr = (.error .emptyResponse, m, true)) ∧
      (∀ body e rest, dtr = .success (some body) →
        body.response = some (e :: rest) → e.errorCode ≠ 0 →
        Clients.delete m name dtr rtr = (.ok (), m, true)) ∧
      (∀ body msg, dtr = .success (some body) → body.response = none →
        body.errorCode.getD 0 ≠ 0 → body.errorMessage = some msg → msg ≠ "" →
        Clients.delete m name dtr rtr =
          (.error (.clientError
            ("Failed to delete client\nError: \"" ++ msg ++ "\"")), m, true)) ∧
      (∀ body msg, dtr = .success (some body) → body.response = none →
        body.errorCode.getD 0 = 0 → body.warningCode.getD 0 ≠ 0 →
        body.warningMessage = some msg → msg ≠ "" →
        Clients.delete m name dtr rtr =
          (.error (.clientError
            ("Failed to delete client\nWarning: \"" ++ msg ++ "\"")),
           m, true))) := by
  have hl := has_client_pyLower m name
  constructor
  · intro hfalse
    rw [hfalse] at hl
    simp [Clients.delete, hl]
  · intro htrue
    rw [htrue] at hl
    refine ⟨?_, ?_, ?_, ?_, ?_⟩
    · rintro text rfl
      simp [Clients.delete, hl, update_response]
    · rintro rfl
      simp [Clients.delete, hl]
    · rintro body e rest rfl hresp hec
      simp [Clients.delete, hl, hresp, hec]
    · rintro body msg rfl hresp hec hmsg hne
      simp [Clients.delete, hl, hresp, hec, hmsg, hne]
    · rintro body msg rfl hresp hec hwc hmsg hne
      simp [Clients.delete, hl, hresp, hec, hwc, hmsg, hne]

theorem claim2_witness :
    Clients.delete [("clienta", "5")] "clienta"
      (.success (some ⟨none, some 2, none, some "bad", none⟩))
      (.failure "g") =
      (.error (.clientError "Failed to delete client\nError: \"bad\""),
       [("clienta", "5")], true) :=
  ((claim2_delete_error_paths [("clienta", "5")] "clienta"
    (.success (some ⟨none, some 2, none, some "bad", none⟩))
    (.failure "g")).2 rfl).2.2.2.1
    ⟨none, some 2, none, some "bad", none⟩ "bad" rfl rfl (by decide) rfl
    (by decide)

end Cvpysdk
